import Mathlib

/-!
Shallow embedding of the account / session-management subsystem of the
`routes/users.js` Express router (registration, email verification, login,
role-gated dashboards, admin role-update and employee-archival actions).

The document store is modelled as a `List Account` (Mongo `findOne` returns
the first match in list order; `updateOne` updates the first matching
document).  The bcrypt hasher is an external collaborator and is modelled as
an abstract `hash : String → String` parameter, with `bcrypt.compare p h`
meaning `hash p == h`.  Timestamps are naturals (milliseconds); the JS
comparison `user.tokenExpiry < new Date()` on an unset (`undefined`) field is
`false`, which `dateLt` reproduces.
-/

namespace EcomUsers

/-- An account document in the `users` collection, as built by the
`POST /register` handler.  `mongoId` models the Mongo-assigned `_id` used as
the filter key by `update-role` / `archive-employee`; `verificationToken` and
`tokenExpiry` are `Option` because the verification handler `$unset`s them. -/
structure Account where
  mongoId : String
  userId : String
  firstName : String
  lastName : String
  email : String
  passwordHash : String
  role : String
  accountStatus : String
  isEmailVerified : Bool
  verificationToken : Option String
  tokenExpiry : Option Nat
  createdAt : Nat
  updatedAt : Nat
deriving Repr, DecidableEq

/-- The principal snapshot stored in `req.session.user` on successful login. -/
structure Principal where
  userId : String
  firstName : String
  lastName : String
  email : String
  role : String
  isEmailVerified : Bool
deriving Repr, DecidableEq

/-- Outcome of `POST /register`. -/
inductive RegisterResult where
  | userExists
  | success
deriving Repr, DecidableEq

/-- Outcome of `GET /verify/:token`. -/
inductive VerifyResult where
  | invalidToken
  | expiredToken
  | verified
deriving Repr, DecidableEq

/-- Outcome of `POST /login`: one of the four distinct failure messages, or a
redirect to a role-dependent dashboard path. -/
inductive LoginResult where
  | userNotFound
  | emailNotVerified
  | accountNotActive
  | invalidPassword
  | redirect (path : String)
deriving Repr, DecidableEq

/-- Outcome of a dashboard GET handler: the fixed 403 "Access denied."
response, or rendering a view. -/
inductive RouteResult where
  | forbidden
  | render (view : String)
deriving Repr, DecidableEq

/-- Outcome of the admin action POST handlers (`{success, message}` JSON). -/
inductive AdminActionResult where
  | success (message : String)
  | failure (message : String)
deriving Repr, DecidableEq

/-- JS `String.prototype.toLowerCase`, character-wise (the role strings the
router compares are ASCII). -/
def toLowerCase (s : String) : String := String.mk (s.data.map Char.toLower)

/-- JS `x < new Date()` on a possibly-undefined stored expiry: comparison
with `undefined` is `false`. -/
def dateLt : Option Nat → Nat → Bool
  | some t, now => decide (t < now)
  | none, _ => false

/-- Mongo `updateOne`: apply `f` to the first document matching `p`. -/
def updateFirst (p : Account → Bool) (f : Account → Account) :
    List Account → List Account
  | [] => []
  | a :: rest => if p a then f a :: rest else a :: updateFirst p f rest

/-- `POST /register`: reject when an account with the email exists, else
insert a fresh customer account with a verification token expiring in one
hour (`Date.now() + 3600000`).  `freshMongoId`, `freshUserId` and `token` are
the identifiers produced by the store and `uuidv4()`. -/
def register (db : List Account) (hash : String → String)
    (freshMongoId freshUserId token : String) (now : Nat)
    (email password firstName lastName : String) :
    RegisterResult × List Account :=
  match db.find? (fun u => u.email == email) with
  | some _ => (.userExists, db)
  | none =>
    let newUser : Account :=
      { mongoId := freshMongoId
        userId := freshUserId
        firstName := firstName
        lastName := lastName
        email := email
        passwordHash := hash password
        role := "customer"
        accountStatus := "active"
        isEmailVerified := false
        verificationToken := some token
        tokenExpiry := some (now + 3600000)
        createdAt := now
        updatedAt := now }
    (.success, db ++ [newUser])

/-- `GET /verify/:token`: look up by token; reject when none matches or the
expiry is past; otherwise one `updateOne` sets `isEmailVerified` and unsets
both token fields. -/
def verifyEmail (db : List Account) (now : Nat) (token : String) :
    VerifyResult × List Account :=
  match db.find? (fun u => u.verificationToken == some token) with
  | none => (.invalidToken, db)
  | some user =>
    if dateLt user.tokenExpiry now then (.expiredToken, db)
    else
      (.verified,
        updateFirst (fun u => u.verificationToken == some token)
          (fun u =>
            { u with isEmailVerified := true, verificationToken := none,
                     tokenExpiry := none })
          db)

/-- `POST /login`: the four sequential checks of the handler, then
`req.session.user` is set and the response redirects by lowercased role. -/
def login (db : List Account) (hash : String → String)
    (session : Option Principal) (email password : String) :
    LoginResult × Option Principal :=
  match db.find? (fun u => u.email == email) with
  | none => (.userNotFound, session)
  | some user =>
    if !user.isEmailVerified then (.emailNotVerified, session)
    else if !(user.accountStatus == "active") then (.accountNotActive, session)
    else if !(hash password == user.passwordHash) then
      (.invalidPassword, session)
    else
      let principal : Principal :=
        { userId := user.userId
          firstName := user.firstName
          lastName := user.lastName
          email := user.email
          role := user.role
          isEmailVerified := user.isEmailVerified }
      let result :=
        if toLowerCase user.role == "admin" then
          LoginResult.redirect "/users/adminDashboard"
        else if toLowerCase user.role == "employee" then
          LoginResult.redirect "/users/emp-dashboard"
        else LoginResult.redirect "/users/dashboard"
      (result, some principal)

/-- `GET /dashboard`: renders the customer dashboard with no guard. -/
def dashboard (session : Option Principal) :
    RouteResult × Option Principal :=
  (.render "dashboard", session)

/-- `GET /emp-dashboard`: 403 unless a session user exists with lowercased
role `employee`. -/
def empDashboard (session : Option Principal) :
    RouteResult × Option Principal :=
  match session with
  | none => (.forbidden, none)
  | some user =>
    if !(toLowerCase user.role == "employee") then (.forbidden, some user)
    else (.render "emp-dashboard", some user)

/-- `GET /adminDashboard`: 403 unless a session user exists with lowercased
role `admin`. -/
def adminDashboard (session : Option Principal) :
    RouteResult × Option Principal :=
  match session with
  | none => (.forbidden, none)
  | some user =>
    if !(toLowerCase user.role == "admin") then (.forbidden, some user)
    else (.render "adminDashboard", some user)

/-- `GET /reports`: 403 unless a session user exists with lowercased role
`admin`. -/
def reports (session : Option Principal) :
    RouteResult × Option Principal :=
  match session with
  | none => (.forbidden, none)
  | some user =>
    if !(toLowerCase user.role == "admin") then (.forbidden, some user)
    else (.render "reports", some user)

/-- Process state visible to the admin action handlers: the `users`
collection and the (express-session) session store, which those handlers
never touch. -/
structure ServerState where
  users : List Account
  sessions : List (String × Principal)
deriving Repr, DecidableEq

/-- `POST /update-role`: `updateOne({_id}, {$set: {role, updatedAt}})` and a
success JSON message. -/
def updateRole (st : ServerState) (now : Nat) (userId newRole : String) :
    AdminActionResult × ServerState :=
  (.success ("Role updated to " ++ newRole),
   { st with
       users :=
         updateFirst (fun u => u.mongoId == userId)
           (fun u => { u with role := newRole, updatedAt := now }) st.users })

/-- `POST /archive-employee`:
`updateOne({_id}, {$set: {accountStatus: 'resigned', updatedAt}})` and a
success JSON message. -/
def archiveEmployee (st : ServerState) (now : Nat) (userId : String) :
    AdminActionResult × ServerState :=
  (.success "Employee marked as Resigned",
   { st with
       users :=
         updateFirst (fun u => u.mongoId == userId)
           (fun u => { u with accountStatus := "resigned", updatedAt := now })
           st.users })

/-! ### Helper lemmas on `find?` / `updateFirst` -/

/-- A successful `find?` splits the list at the first match. -/
lemma find?_decomp {α : Type} {p : α → Bool} {l : List α} {a : α}
    (h : l.find? p = some a) :
    ∃ l₁ l₂, l = l₁ ++ a :: l₂ ∧ (∀ x ∈ l₁, p x = false) ∧ p a = true := by
  induction l with
  | nil => simp [List.find?] at h
  | cons b rest ih =>
    by_cases hb : p b
    · rw [List.find?_cons_of_pos _ hb] at h
      refine ⟨[], rest, ?_, ?_, ?_⟩ <;> simp_all
    · rw [List.find?_cons_of_neg _ (by simpa using hb)] at h
      obtain ⟨l₁, l₂, hl, h1, h2⟩ := ih h
      refine ⟨b :: l₁, l₂, by simp [hl], ?_, h2⟩
      intro x hx
      rcases List.mem_cons.mp hx with rfl | hx
      · simpa using hb
      · exact h1 x hx

/-- `updateFirst` on a list split at its first match touches only that
element. -/
lemma updateFirst_append {p : Account → Bool} {f : Account → Account}
    {l₁ : List Account} {a : Account} {l₂ : List Account}
    (h1 : ∀ x ∈ l₁, p x = false) (ha : p a = true) :
    updateFirst p f (l₁ ++ a :: l₂) = l₁ ++ f a :: l₂ := by
  induction l₁ with
  | nil => simp [updateFirst, ha]
  | cons b rest ih =>
    have hb := h1 b (by simp)
    simp only [List.cons_append, updateFirst, hb]
    simp only [Bool.false_eq_true, if_false, List.cons.injEq, true_and]
    exact ih fun x hx => h1 x (by simp [hx])

/-! ### Concrete values used by witnesses -/

/-- A demonstration hash collaborator for concrete witnesses. -/
def demoHash (s : String) : String := s ++ "!hashed"

/-- A registered-but-unverified demo account. -/
def acctUnverified : Account :=
  { mongoId := "m1", userId := "u1", firstName := "A", lastName := "B",
    email := "a@x.com", passwordHash := demoHash "pw", role := "customer",
    accountStatus := "active", isEmailVerified := false,
    verificationToken := some "tok", tokenExpiry := some 1000,
    createdAt := 0, updatedAt := 0 }

/-- A verified, active demo account with a role outside the closed set. -/
def acctManager : Account :=
  { mongoId := "m3", userId := "u3", firstName := "C", lastName := "D",
    email := "c@x.com", passwordHash := demoHash "pw3", role := "Manager",
    accountStatus := "active", isEmailVerified := true,
    verificationToken := none, tokenExpiry := none,
    createdAt := 0, updatedAt := 0 }

/-! ### Claim theorems -/

/-- C1: the login handler evaluates its four checks in this order — account
existence, email verification, active status, password match — each
short-circuiting with its own distinct failure.  An unverified account fails
with `emailNotVerified` for every supplied password, and a non-active (e.g.
resigned) account fails with `accountNotActive` even when the password is
correct (no hypothesis on the password in either case). -/
theorem login_checks_order (db : List Account) (hash : String → String)
    (s : Option Principal) (email password : String) :
    (db.find? (fun u => u.email == email) = none →
      login db hash s email password = (.userNotFound, s)) ∧
    (∀ u, db.find? (fun u => u.email == email) = some u →
      (u.isEmailVerified = false →
        login db hash s email password = (.emailNotVerified, s)) ∧
      (u.isEmailVerified = true → u.accountStatus ≠ "active" →
        login db hash s email password = (.accountNotActive, s)) ∧
      (u.isEmailVerified = true → u.accountStatus = "active" →
        hash password ≠ u.passwordHash →
        login db hash s email password = (.invalidPassword, s))) := by
  refine ⟨fun h => by simp [login, h], fun u hu => ⟨?_, ?_, ?_⟩⟩
  · intro h1; simp [login, hu, h1]
  · intro h1 h2; simp [login, hu, h1, h2]
  · intro h1 h2 h3; simp [login, hu, h1, h2, h3]

/-- Witness for C1: an unverified account with the correct password still
fails with `emailNotVerified`. -/
theorem login_checks_order_witness :
    login [acctUnverified] demoHash none "a@x.com" "pw" =
      (.emailNotVerified, none) :=
  ((login_checks_order [acctUnverified] demoHash none "a@x.com" "pw").2
      acctUnverified (by decide)).1 (by decide)

/-- C5: registering with an email that already has an account fails with the
duplicate-email rejection and the store is returned unchanged — no account
is inserted. -/
theorem register_duplicate_email (db : List Account) (hash : String → String)
    (mid uid token : String) (now : Nat) (email pw fn ln : String)
    (h : ∃ u, db.find? (fun v => v.email == email) = some u) :
    register db hash mid uid token now email pw fn ln = (.userExists, db) := by
  obtain ⟨u, hu⟩ := h
  simp [register, hu]

/-- Witness for C5 at a concrete store holding the email already. -/
theorem register_duplicate_email_witness :
    register [acctUnverified] demoHash "m2" "u2" "t2" 5 "a@x.com" "pw" "A" "B"
      = (.userExists, [acctUnverified]) :=
  register_duplicate_email [acctUnverified] demoHash "m2" "u2" "t2" 5
    "a@x.com" "pw" "A" "B" ⟨acctUnverified, by decide⟩

/-- C6: a successful registration appends exactly one account, having
role `customer`, status `active`, `isEmailVerified = false`, the salted hash
of the password (never the plaintext), a fresh token, and
`tokenExpiry = now + 3600000` — not yet expired at creation time. -/
theorem register_new_account (db : List Account) (hash : String → String)
    (mid uid token : String) (now : Nat) (email pw fn ln : String)
    (h : db.find? (fun v => v.email == email) = none) :
    ∃ a : Account,
      register db hash mid uid token now email pw fn ln =
        (.success, db ++ [a]) ∧
      a.role = "customer" ∧
      a.accountStatus = "active" ∧
      a.isEmailVerified = false ∧
      a.passwordHash = hash pw ∧
      a.verificationToken = some token ∧
      a.tokenExpiry = some (now + 3600000) ∧
      dateLt a.tokenExpiry now = false ∧
      (hash pw ≠ pw → a.passwordHash ≠ pw) := by
  refine ⟨{ mongoId := mid, userId := uid, firstName := fn, lastName := ln,
            email := email, passwordHash := hash pw, role := "customer",
            accountStatus := "active", isEmailVerified := false,
            verificationToken := some token,
            tokenExpiry := some (now + 3600000),
            createdAt := now, updatedAt := now },
          ?_, rfl, rfl, rfl, rfl, rfl, rfl, ?_, fun hne => hne⟩
  · simp [register, h]
  · simp [dateLt]

/-- Witness for C6 on the empty store. -/
theorem register_new_account_witness :
    ∃ a : Account,
      register [] demoHash "m9" "u9" "t9" 7 "n@x.com" "pw9" "N" "M" =
        (.success, [] ++ [a]) ∧
      a.role = "customer" ∧
      a.accountStatus = "active" ∧
      a.isEmailVerified = false ∧
      a.passwordHash = demoHash "pw9" ∧
      a.verificationToken = some "t9" ∧
      a.tokenExpiry = some (7 + 3600000) ∧
      dateLt a.tokenExpiry 7 = false ∧
      (demoHash "pw9" ≠ "pw9" → a.passwordHash ≠ "pw9") :=
  register_new_account [] demoHash "m9" "u9" "t9" 7 "n@x.com" "pw9" "N" "M"
    (by decide)

/-- C7: a matching but expired verification token fails with `expiredToken`
and the whole store — hence the account, its `isEmailVerified` flag and both
token fields — is returned unchanged. -/
theorem verifyEmail_expired_unchanged (db : List Account) (now : Nat)
    (token : String) (u : Account)
    (hfind : db.find? (fun v => v.verificationToken == some token) = some u)
    (hexp : dateLt u.tokenExpiry now = true) :
    verifyEmail db now token = (.expiredToken, db) := by
  simp [verifyEmail, hfind, hexp]

/-- Witness for C7: the pending account's token expired at 1000; at time
2000 verification fails and the store is unchanged. -/
theorem verifyEmail_expired_unchanged_witness :
    verifyEmail [acctUnverified] 2000 "tok" =
      (.expiredToken, [acctUnverified]) :=
  verifyEmail_expired_unchanged [acctUnverified] 2000 "tok" acctUnverified
    (by decide) (by decide)

/-- C10: a successful login whose stored role lowercases to neither `admin`
nor `employee` — any role string, not only `customer` — redirects to
`/users/dashboard` and binds the principal snapshot to the session. -/
theorem login_other_role_redirect (db : List Account) (hash : String → String)
    (s : Option Principal) (email password : String) (u : Account)
    (hfind : db.find? (fun v => v.email == email) = some u)
    (hver : u.isEmailVerified = true)
    (hact : u.accountStatus = "active")
    (hpw : hash password = u.passwordHash)
    (hadmin : toLowerCase u.role ≠ "admin")
    (hemp : toLowerCase u.role ≠ "employee") :
    login db hash s email password =
      (.redirect "/users/dashboard",
        some { userId := u.userId, firstName := u.firstName,
               lastName := u.lastName, email := u.email, role := u.role,
               isEmailVerified := u.isEmailVerified }) := by
  simp [login, hfind, hver, hact, hpw, hadmin, hemp]

/-- Witness for C10: role `Manager` (outside the closed role set) logs in
and is redirected to the customer dashboard. -/
theorem login_other_role_redirect_witness :
    login [acctManager] demoHash none "c@x.com" "pw3" =
      (.redirect "/users/dashboard",
        some { userId := "u3", firstName := "C", lastName := "D",
               email := "c@x.com", role := "Manager",
               isEmailVerified := true }) :=
  login_other_role_redirect [acctManager] demoHash none "c@x.com" "pw3"
    acctManager (by decide) (by decide) (by decide) (by decide)
    (by decide) (by decide)

/-- C2: with a matching, unexpired token (held by exactly one account, as
registration guarantees for fresh `uuidv4` tokens), verification succeeds
and the single update sets `isEmailVerified := true` while removing both
`verificationToken` and `tokenExpiry`; a second verification with the same
token on the updated store finds no account and fails with `invalidToken`
(the `NotFound` outcome) — verification is not idempotent by design. -/
theorem verifyEmail_success_not_idempotent (db : List Account)
    (now now2 : Nat) (token : String) (u : Account)
    (hfind : db.find? (fun v => v.verificationToken == some token) = some u)
    (hexp : dateLt u.tokenExpiry now = false)
    (huniq : db.countP (fun v => v.verificationToken == some token) = 1) :
    ∃ l₁ l₂,
      db = l₁ ++ u :: l₂ ∧
      verifyEmail db now token =
        (.verified,
         l₁ ++ { u with isEmailVerified := true, verificationToken := none,
                        tokenExpiry := none } :: l₂) ∧
      verifyEmail
          (l₁ ++ { u with isEmailVerified := true, verificationToken := none,
                          tokenExpiry := none } :: l₂) now2 token =
        (.invalidToken,
         l₁ ++ { u with isEmailVerified := true, verificationToken := none,
                        tokenExpiry := none } :: l₂) := by
  obtain ⟨l₁, l₂, hsplit, h1, h2⟩ := find?_decomp hfind
  have hl₁0 : l₁.countP (fun v => v.verificationToken == some token) = 0 := by
    rw [List.countP_eq_zero]
    intro x hx
    simpa using h1 x hx
  have hl₂ : ∀ x ∈ l₂, (x.verificationToken == some token) = false := by
    have hc := huniq
    rw [hsplit, List.countP_append, List.countP_cons] at hc
    simp only [h2, if_true] at hc
    have hl₂0 : l₂.countP (fun v => v.verificationToken == some token) = 0 :=
      by omega
    intro x hx
    simpa using (List.countP_eq_zero.mp hl₂0) x hx
  have hnone :
      (l₁ ++ { u with isEmailVerified := true, verificationToken := none,
                      tokenExpiry := none } :: l₂).find?
        (fun v => v.verificationToken == some token) = none := by
    rw [List.find?_eq_none]
    intro x hx
    rcases List.mem_append.mp hx with hx | hx
    · simpa using h1 x hx
    · rcases List.mem_cons.mp hx with rfl | hx
      · simp
      · simpa using hl₂ x hx
  refine ⟨l₁, l₂, hsplit, ?_, ?_⟩
  · rw [hsplit] at hfind ⊢
    simp [verifyEmail, hfind, hexp, updateFirst_append h1 h2]
  · simp [verifyEmail, hnone]

/-- Witness for C2 on a one-account store: verify at time 500 (before the
expiry 1000), then re-verify at 600 and fail. -/
theorem verifyEmail_success_not_idempotent_witness :
    ∃ l₁ l₂,
      [acctUnverified] = l₁ ++ acctUnverified :: l₂ ∧
      verifyEmail [acctUnverified] 500 "tok" =
        (.verified,
         l₁ ++ { acctUnverified with
                 isEmailVerified := true,
                 verificationToken := none, tokenExpiry := none } :: l₂) ∧
      verifyEmail
          (l₁ ++ { acctUnverified with
                   isEmailVerified := true,
                   verificationToken := none, tokenExpiry := none } :: l₂)
          600 "tok" =
        (.invalidToken,
         l₁ ++ { acctUnverified with
                 isEmailVerified := true,
                 verificationToken := none, tokenExpiry := none } :: l₂) :=
  verifyEmail_success_not_idempotent [acctUnverified] 500 600 "tok"
    acctUnverified (by decide) (by decide) (by decide)

/-- A live session bound to the demo account, for the archival witness. -/
def demoPrincipal : Principal :=
  { userId := "u3", firstName := "C", lastName := "D", email := "c@x.com",
    role := "Manager", isEmailVerified := true }

/-- A demo server state: one account and one live session for it. -/
def demoState : ServerState :=
  { users := [acctManager], sessions := [("sid1", demoPrincipal)] }

/-- C8: `update-role` on an existing account changes exactly that account's
`role` (to `newRole`) and `updatedAt`; explicitly, its verification flag,
status, email, password hash, identifiers, token fields and creation time
are untouched, and every other account (the surrounding lists `l₁`, `l₂`)
is unchanged. -/
theorem updateRole_frame (st : ServerState) (now : Nat)
    (uid newRole : String) (a : Account)
    (h : st.users.find? (fun u => u.mongoId == uid) = some a) :
    ∃ l₁ l₂,
      st.users = l₁ ++ a :: l₂ ∧
      updateRole st now uid newRole =
        (.success ("Role updated to " ++ newRole),
         { st with users :=
             l₁ ++ { a with role := newRole, updatedAt := now } :: l₂ }) ∧
      ({ a with role := newRole, updatedAt := now }).isEmailVerified
          = a.isEmailVerified ∧
      ({ a with role := newRole, updatedAt := now }).accountStatus
          = a.accountStatus ∧
      ({ a with role := newRole, updatedAt := now }).email = a.email ∧
      ({ a with role := newRole, updatedAt := now }).passwordHash
          = a.passwordHash ∧
      ({ a with role := newRole, updatedAt := now }).verificationToken
          = a.verificationToken ∧
      ({ a with role := newRole, updatedAt := now }).tokenExpiry
          = a.tokenExpiry ∧
      ({ a with role := newRole, updatedAt := now }).mongoId = a.mongoId ∧
      ({ a with role := newRole, updatedAt := now }).userId = a.userId ∧
      ({ a with role := newRole, updatedAt := now }).createdAt = a.createdAt ∧
      ({ a with role := newRole, updatedAt := now }).role = newRole ∧
      ({ a with role := newRole, updatedAt := now }).updatedAt = now := by
  obtain ⟨l₁, l₂, hsplit, h1, h2⟩ := find?_decomp h
  refine ⟨l₁, l₂, hsplit, ?_, rfl, rfl, rfl, rfl, rfl, rfl, rfl, rfl, rfl,
    rfl, rfl⟩
  simp only [updateRole, hsplit, updateFirst_append h1 h2]

/-- Witness for C8: the demo account's role changes to `employee`, nothing
else about it changes. -/
theorem updateRole_frame_witness :
    ∃ l₁ l₂,
      demoState.users = l₁ ++ acctManager :: l₂ ∧
      updateRole demoState 9 "m3" "employee" =
        (.success ("Role updated to " ++ "employee"),
         { demoState with users :=
             l₁ ++ { acctManager with
                     role := "employee", updatedAt := 9 } :: l₂ }) ∧
      ({ acctManager with role := "employee", updatedAt := 9 }).isEmailVerified
          = acctManager.isEmailVerified ∧
      ({ acctManager with role := "employee", updatedAt := 9 }).accountStatus
          = acctManager.accountStatus ∧
      ({ acctManager with role := "employee", updatedAt := 9 }).email
          = acctManager.email ∧
      ({ acctManager with role := "employee", updatedAt := 9 }).passwordHash
          = acctManager.passwordHash ∧
      ({ acctManager with
         role := "employee", updatedAt := 9 }).verificationToken
          = acctManager.verificationToken ∧
      ({ acctManager with role := "employee", updatedAt := 9 }).tokenExpiry
          = acctManager.tokenExpiry ∧
      ({ acctManager with role := "employee", updatedAt := 9 }).mongoId
          = acctManager.mongoId ∧
      ({ acctManager with role := "employee", updatedAt := 9 }).userId
          = acctManager.userId ∧
      ({ acctManager with role := "employee", updatedAt := 9 }).createdAt
          = acctManager.createdAt ∧
      ({ acctManager with role := "employee", updatedAt := 9 }).role
          = "employee" ∧
      ({ acctManager with role := "employee", updatedAt := 9 }).updatedAt
          = 9 :=
  updateRole_frame demoState 9 "m3" "employee" acctManager (by decide)

/-- C9: `archive-employee` on an existing account sets that account's
`accountStatus` to `resigned` and refreshes `updatedAt`, leaves its role and
verification flag and every other account unchanged, and leaves the session
store — including any live session bound to the archived account — exactly
as it was: archiving revokes nothing. -/
theorem archiveEmployee_frame (st : ServerState) (now : Nat) (uid : String)
    (a : Account)
    (h : st.users.find? (fun u => u.mongoId == uid) = some a) :
    ∃ l₁ l₂,
      st.users = l₁ ++ a :: l₂ ∧
      archiveEmployee st now uid =
        (.success "Employee marked as Resigned",
         { users := l₁ ++ { a with accountStatus := "resigned",
                                   updatedAt := now } :: l₂,
           sessions := st.sessions }) ∧
      (archiveEmployee st now uid).2.sessions = st.sessions ∧
      ({ a with accountStatus := "resigned", updatedAt := now }).accountStatus
          = "resigned" ∧
      ({ a with accountStatus := "resigned", updatedAt := now }).role
          = a.role ∧
      ({ a with accountStatus := "resigned",
                updatedAt := now }).isEmailVerified = a.isEmailVerified := by
  obtain ⟨l₁, l₂, hsplit, h1, h2⟩ := find?_decomp h
  refine ⟨l₁, l₂, hsplit, ?_, rfl, rfl, rfl, rfl⟩
  simp only [archiveEmployee, hsplit, updateFirst_append h1 h2]

/-- Witness for C9: archiving the demo account in a state holding a live
session for it leaves the session store untouched. -/
theorem archiveEmployee_frame_witness :
    ∃ l₁ l₂,
      demoState.users = l₁ ++ acctManager :: l₂ ∧
      archiveEmployee demoState 11 "m3" =
        (.success "Employee marked as Resigned",
         { users := l₁ ++ { acctManager with
                            accountStatus := "resigned",
                            updatedAt := 11 } :: l₂,
           sessions := demoState.sessions }) ∧
      (archiveEmployee demoState 11 "m3").2.sessions = demoState.sessions ∧
      ({ acctManager with
         accountStatus := "resigned", updatedAt := 11 }).accountStatus
          = "resigned" ∧
      ({ acctManager with
         accountStatus := "resigned", updatedAt := 11 }).role
          = acctManager.role ∧
      ({ acctManager with
         accountStatus := "resigned", updatedAt := 11 }).isEmailVerified
          = acctManager.isEmailVerified :=
  archiveEmployee_frame demoState 11 "m3" acctManager (by decide)

/-- C3: for each role-gated route (employee dashboard requiring `employee`;
admin dashboard and reports requiring `admin`) and every session state, the
response is either the route's render or the fixed 403 denial, in both cases
with the session unchanged (no redirect, no session mutation); the render
happens exactly when a session principal exists whose lowercased role equals
the required role — so a missing session yields the same denial as a role
mismatch. -/
theorem roleGated_access (s : Option Principal) :
    (empDashboard s = (.render "emp-dashboard", s) ∨
      empDashboard s = (.forbidden, s)) ∧
    (empDashboard s = (.render "emp-dashboard", s) ↔
      ∃ u, s = some u ∧ toLowerCase u.role = "employee") ∧
    (adminDashboard s = (.render "adminDashboard", s) ∨
      adminDashboard s = (.forbidden, s)) ∧
    (adminDashboard s = (.render "adminDashboard", s) ↔
      ∃ u, s = some u ∧ toLowerCase u.role = "admin") ∧
    (reports s = (.render "reports", s) ∨
      reports s = (.forbidden, s)) ∧
    (reports s = (.render "reports", s) ↔
      ∃ u, s = some u ∧ toLowerCase u.role = "admin") := by
  rcases s with _ | u
  · exact ⟨Or.inr rfl, by simp [empDashboard], Or.inr rfl,
      by simp [adminDashboard], Or.inr rfl, by simp [reports]⟩
  · refine ⟨?_, ?_, ?_, ?_, ?_, ?_⟩
    · by_cases h : toLowerCase u.role = "employee" <;>
        simp [empDashboard, h]
    · by_cases h : toLowerCase u.role = "employee" <;>
        simp [empDashboard, h]
    · by_cases h : toLowerCase u.role = "admin" <;>
        simp [adminDashboard, h]
    · by_cases h : toLowerCase u.role = "admin" <;>
        simp [adminDashboard, h]
    · by_cases h : toLowerCase u.role = "admin" <;>
        simp [reports, h]
    · by_cases h : toLowerCase u.role = "admin" <;>
        simp [reports, h]

/-- C4, counterexample: with no session at all, `GET /users/dashboard`
renders the customer dashboard — it is not denied. -/
theorem dashboard_no_session_renders :
    dashboard none = (.render "dashboard", none) ∧
    dashboard none ≠ (.forbidden, none) := by
  exact ⟨rfl, by simp [dashboard]⟩

/-- C4, amended: the `GET /users/dashboard` handler has no guard — it
renders the customer dashboard for every session state, live or absent,
passing the (possibly absent) session principal through unchanged. -/
theorem dashboard_renders_unconditionally (s : Option Principal) :
    dashboard s = (.render "dashboard", s) := rfl

end EcomUsers
